import Mathlib

/-!
Verification of the message-transformation pipeline of the
`telegram-chat-ai-cleaner` repository: a shallow embedding of the message
model (`src/tg_analyzer/config/models.py`), the export parser
(`src/tg_analyzer/processors/telegram_parser.py`) and the three cleaning
strategies (`src/tg_analyzer/processors/cleaners/`), together with theorems
settling the specification's claims about them.

Embedding conventions.  Cleaners receive messages as `model_dump()`
dictionaries of the Pydantic `Message` model; every declared field is
present in such a dictionary (as `None` when unset), so `dict.get(key,
default)` returns the stored value and the default is dead.  We therefore
embed each `get` call site by its actual semantics: the stored `Option`
value, with Python truthiness (`None`, `""` and `0` are falsy) and Python's
f-string rendering of `None` as the literal string `"None"` made explicit.
-/

namespace TgClean

set_option maxRecDepth 100000

/-! ## Python string primitives -/

/-- Python `str` whitespace for `str.strip()` (ASCII part; the Unicode
whitespace code points Python additionally strips never occur in the
developments below). -/
def isPyWhitespace (c : Char) : Bool :=
  c = ' ' || c = '\t' || c = '\n' || c = '\r' || c = '\x0b' || c = '\x0c'

/-- `str.strip()` on a character list: drop leading and trailing whitespace. -/
def stripChars (l : List Char) : List Char :=
  ((l.dropWhile isPyWhitespace).reverse.dropWhile isPyWhitespace).reverse

/-- Python `s.strip()`. -/
def pyStrip (s : String) : String := ⟨stripChars s.data⟩

/-- Python truthiness of a `None`-or-`str` value: `None` and `""` are falsy. -/
def pyTruthyOptStr : Option String → Bool
  | none => false
  | some s => s ≠ ""

/-- Python truthiness of a `None`-or-`int` value: `None` and `0` are falsy. -/
def pyTruthyOptInt : Option Int → Bool
  | none => false
  | some n => n ≠ 0

/-- Python f-string rendering of a `None`-or-`str` value: `None` prints as
the literal text `None`. -/
def pyRenderOptStr : Option String → String
  | none => "None"
  | some s => s

/-- Python `sep.join(parts)`. -/
def pyJoin (sep : String) : List String → String
  | [] => ""
  | [a] => a
  | a :: b :: rest => a ++ sep ++ pyJoin sep (b :: rest)

/-! ## Timestamps

Only the parts of `datetime` the pipeline touches are embedded: a parsed
calendar time and the `strftime` patterns the cleaners use. -/

structure PyDateTime where
  year : Nat
  month : Nat
  day : Nat
  hour : Nat
  minute : Nat
  second : Nat
deriving DecidableEq, Repr

def pad2 (n : Nat) : String := if n < 10 then "0" ++ toString n else toString n

def pad4 (n : Nat) : String :=
  if n < 10 then "000" ++ toString n
  else if n < 100 then "00" ++ toString n
  else if n < 1000 then "0" ++ toString n
  else toString n

/-- `strftime("%Y-%m-%d %H:%M")`. -/
def fmtYmdHM (d : PyDateTime) : String :=
  pad4 d.year ++ "-" ++ pad2 d.month ++ "-" ++ pad2 d.day ++ " " ++
    pad2 d.hour ++ ":" ++ pad2 d.minute

/-- `strftime("%Y-%m-%d %H:%M:%S")`. -/
def fmtYmdHMS (d : PyDateTime) : String :=
  fmtYmdHM d ++ ":" ++ pad2 d.second

/-- `strftime("%m/%d %H:%M")`. -/
def fmtMdHM (d : PyDateTime) : String :=
  pad2 d.month ++ "/" ++ pad2 d.day ++ " " ++ pad2 d.hour ++ ":" ++ pad2 d.minute

/-! ## The message model (`config/models.py`) -/

/-- `TextEntity` (link, mention, hashtag, ...). -/
structure TextEntity where
  type : String
  text : String
  href : Option String := none
  user_id : Option String := none
deriving DecidableEq, Repr

/-- One entry of `Reaction.recent`, as produced by
`TelegramParser._parse_recent_reactions` (`from` is a Lean keyword, so the
field is called `from_name` here). -/
structure RecentReaction where
  from_name : Option String := none
  from_id : Option String := none
  date : Option PyDateTime := none
deriving DecidableEq, Repr

/-- `Reaction`. -/
structure Reaction where
  type : String := "emoji"
  emoji : Option String := none
  count : Int := 0
  recent : List RecentReaction := []
deriving DecidableEq, Repr

/-- The `Message` Pydantic model.  The pass-through fields the cleaners and
claims never touch (`contact_*`, `location_*`, `poll`, raw dictionaries) are
omitted. -/
structure Message where
  id : Int
  type : String
  date : Option PyDateTime := none
  date_unixtime : Option Int := none
  edited : Option PyDateTime := none
  edited_unixtime : Option Int := none
  from_user : Option String := none
  from_id : Option String := none
  reply_to_message_id : Option Int := none
  text : String := ""
  text_entities : List TextEntity := []
  reactions : List Reaction := []
  forwarded_from : Option String := none
  via_bot : Option String := none
  media_type : Option String := none
  mime_type : Option String := none
  duration_seconds : Option Int := none
  width : Option Int := none
  height : Option Int := none
  file : Option String := none
  file_name : Option String := none
  file_size : Option Int := none
  thumbnail : Option String := none
  thumbnail_file_size : Option Int := none
  photo : Option String := none
  performer : Option String := none
  title : Option String := none
deriving DecidableEq, Repr

/-- `ChatInfo`. -/
structure ChatInfo where
  name : String
  type : String
  id : String
  messages : List Message := []
  source_file : String := ""
deriving DecidableEq, Repr

/-- The dictionary `{msg.id: msg for msg in messages}`: a Python dict
comprehension keeps the last binding of a duplicated key, hence the lookup
scans from the end. -/
def lookupMsg (messages : List Message) (mid : Int) : Option Message :=
  messages.reverse.find? (fun m => m.id == mid)

/-! ## SHA-256 (`hashlib.sha256(...).hexdigest()`)

A byte-level embedding over `Nat`, with 32-bit wrap-around written as
`% 2^32` explicitly. -/

def w32 (n : Nat) : Nat := n % 4294967296

def rotr32 (x n : Nat) : Nat := w32 ((x >>> n) ||| (x <<< (32 - n)))

def shaCh (x y z : Nat) : Nat := (x &&& y) ^^^ ((x ^^^ 4294967295) &&& z)

def shaMaj (x y z : Nat) : Nat := (x &&& y) ^^^ (x &&& z) ^^^ (y &&& z)

def shaS0 (x : Nat) : Nat := rotr32 x 2 ^^^ rotr32 x 13 ^^^ rotr32 x 22

def shaS1 (x : Nat) : Nat := rotr32 x 6 ^^^ rotr32 x 11 ^^^ rotr32 x 25

def shaG0 (x : Nat) : Nat := rotr32 x 7 ^^^ rotr32 x 18 ^^^ (x >>> 3)

def shaG1 (x : Nat) : Nat := rotr32 x 17 ^^^ rotr32 x 19 ^^^ (x >>> 10)

def sha256K : List Nat :=
  [1116352408, 1899447441, 3049323471, 3921009573, 961987163,
   1508970993, 2453635748, 2870763221, 3624381080, 310598401,
   607225278, 1426881987, 1925078388, 2162078206, 2614888103,
   3248222580, 3835390401, 4022224774, 264347078, 604807628,
   770255983, 1249150122, 1555081692, 1996064986, 2554220882,
   2821834349, 2952996808, 3210313671, 3336571891, 3584528711,
   113926993, 338241895, 666307205, 773529912, 1294757372,
   1396182291, 1695183700, 1986661051, 2177026350, 2456956037,
   2730485921, 2820302411, 3259730800, 3345764771, 3516065817,
   3600352804, 4094571909, 275423344, 430227734, 506948616,
   659060556, 883997877, 958139571, 1322822218, 1537002063,
   1747873779, 1955562222, 2024104815, 2227730452, 2361852424,
   2428436474, 2756734187, 3204031479, 3329325298]

def sha256H0 : List Nat :=
  [1779033703, 3144134277, 1013904242, 2773480762,
   1359893119, 2600822924, 528734635, 1541459225]

/-- `k` bytes of `n`, big-endian. -/
def toBytesBE : Nat → Nat → List Nat
  | 0, _ => []
  | k + 1, n => toBytesBE k (n >>> 8) ++ [n &&& 255]

/-- SHA-256 padding: `0x80`, zeros to 56 mod 64, then the bit length in 8
big-endian bytes. -/
def sha256Pad (m : List Nat) : List Nat :=
  let l := m.length
  let z := (119 - (l % 64)) % 64
  m ++ 0x80 :: List.replicate z 0 ++ toBytesBE 8 (8 * l)

/-- Group bytes into big-endian 32-bit words. -/
def bytesToWords : List Nat → List Nat
  | a :: b :: c :: d :: rest =>
      ((((a <<< 8) ||| b) <<< 8 ||| c) <<< 8 ||| d) :: bytesToWords rest
  | _ => []

/-- Extend 16 message words to the 64-entry schedule. -/
def sha256Schedule (w0 : Array Nat) : Array Nat :=
  (List.range 48).foldl
    (fun w _ =>
      let i := w.size
      w.push (w32 (shaG1 (w.getD (i - 2) 0) + w.getD (i - 7) 0 +
        shaG0 (w.getD (i - 15) 0) + w.getD (i - 16) 0)))
    w0

/-- One compression round over a 64-byte block. -/
def sha256Compress (h : List Nat) (block : List Nat) : List Nat :=
  let w := sha256Schedule (bytesToWords block).toArray
  let st0 := (h.getD 0 0, h.getD 1 0, h.getD 2 0, h.getD 3 0,
              h.getD 4 0, h.getD 5 0, h.getD 6 0, h.getD 7 0)
  let stN := (List.range 64).foldl
    (fun st i =>
      match st with
      | (a, b, c, d, e, f, g, hh) =>
        let t1 := w32 (hh + shaS1 e + shaCh e f g + sha256K.getD i 0 + w.getD i 0)
        let t2 := w32 (shaS0 a + shaMaj a b c)
        (w32 (t1 + t2), a, b, c, w32 (d + t1), e, f, g))
    st0
  match stN with
  | (a, b, c, d, e, f, g, hh) =>
    [w32 (h.getD 0 0 + a), w32 (h.getD 1 0 + b), w32 (h.getD 2 0 + c),
     w32 (h.getD 3 0 + d), w32 (h.getD 4 0 + e), w32 (h.getD 5 0 + f),
     w32 (h.getD 6 0 + g), w32 (h.getD 7 0 + hh)]

/-- SHA-256 of a byte sequence, as eight 32-bit words. -/
def sha256Words (msg : List Nat) : List Nat :=
  (((sha256Pad msg).toChunks 64).foldl sha256Compress sha256H0)

def hexChar (n : Nat) : Char := ("0123456789abcdef".data).getD n '0'

def wordToHex (w : Nat) : List Char :=
  (List.range 8).map (fun i => hexChar ((w >>> (28 - 4 * i)) &&& 15))

/-- Hex digest of SHA-256 of a byte sequence. -/
def sha256Hex (msg : List Nat) : String :=
  ⟨((sha256Words msg).map wordToHex).flatten⟩

/-- UTF-8 encoding of one character (mirrors `str.encode()` bytes). -/
def utf8EncodeCharBytes (c : Char) : List Nat :=
  let v := c.toNat
  if v < 128 then [v]
  else if v < 2048 then [192 ||| (v >>> 6), 128 ||| (v &&& 63)]
  else if v < 65536 then
    [224 ||| (v >>> 12), 128 ||| ((v >>> 6) &&& 63), 128 ||| (v &&& 63)]
  else
    [240 ||| (v >>> 18), 128 ||| ((v >>> 12) &&& 63),
     128 ||| ((v >>> 6) &&& 63), 128 ||| (v &&& 63)]

/-- `s.encode()`: UTF-8 bytes of a string. -/
def utf8Bytes (s : String) : List Nat :=
  (s.data.map utf8EncodeCharBytes).flatten

/-- `hashlib.sha256(s.encode()).hexdigest()`. -/
def sha256HexOfString (s : String) : String := sha256Hex (utf8Bytes s)

/-! ## Constants (`constants.py`) -/

def REPLY_TEXT_PREVIEW_LENGTH : Nat := 50

def ANONYMIZED_USER_ID_LENGTH : Nat := 12

/-! ## Privacy cleaner (`processors/cleaners/privacy_cleaner.py`)

The anonymization map `self.user_mapping` is instance state; it is threaded
explicitly as an association list. -/

abbrev UserMap := List (String × String)

/-- `PrivacyCleaner._anonymize_user_id`.  The argument is the raw
`from_id` value, which may be `None`; `if not user_id` catches `None` and
the empty string. -/
def anonymizeUserId (map : UserMap) (user_id : Option String) : String × UserMap :=
  match user_id with
  | none => ("Anonymous", map)
  | some uid =>
    if uid = "" then ("Anonymous", map)
    else
      match map.lookup uid with
      | some v => (v, map)
      | none =>
        let v := "User_" ++ (sha256HexOfString uid).take ANONYMIZED_USER_ID_LENGTH
        (v, map ++ [(uid, v)])

/-- `PrivacyCleaner._clean_level_1`.  Note `message.get("from_user",
anonymized_id)`: the key is always present in a `model_dump()` dictionary,
so the stored value (possibly `None`, rendered `"None"`) is used and the
computed fallback is dead. -/
def cleanPrivacyLevel1 (map : UserMap) (message : Message) : String × UserMap :=
  if message.type ≠ "message" then ("", map)
  else
    -- `anonymized_id` itself is computed but unused (its only consumer is the
    -- dead `get` default); only the map side effect of the truthy branch
    -- survives.
    let map :=
      if pyTruthyOptStr message.from_id then (anonymizeUserId map message.from_id).2
      else map
    let user_name := pyRenderOptStr message.from_user
    let text := pyStrip message.text
    if text = "" then ("", map)
    else (user_name ++ ": " ++ text, map)

/-- `PrivacyCleaner._clean_level_2`.  `reply_to.get("from_user") or
self._anonymize_user_id(reply_to.get("from_id", ""))` short-circuits: the
anonymizer (and its map update) runs only when the display name is falsy.
The map update happens even when the preview text turns out empty. -/
def cleanPrivacyLevel2 (map : UserMap) (message : Message)
    (messages_dict : List Message) : String × UserMap :=
  if message.type ≠ "message" then ("", map)
  else
    let parts : List String :=
      match message.date with
      | some d => ["[" ++ fmtYmdHM d ++ "]"]
      | none => []
    let parts :=
      match message.reply_to_message_id with
      | some rid =>
        if rid ≠ 0 then
          match lookupMsg messages_dict rid with
          | some reply_to =>
            let reply_sender :=
              if pyTruthyOptStr reply_to.from_user then reply_to.from_user.getD ""
              else (anonymizeUserId map reply_to.from_id).1
            let reply_text := reply_to.text.take REPLY_TEXT_PREVIEW_LENGTH
            if reply_text ≠ "" then
              parts ++ ["[Reply to " ++ reply_sender ++ ": " ++ reply_text ++ "...]"]
            else parts
          | none => parts
        else parts
      | none => parts
    -- the anonymizer's map update happens whenever the reply sender's
    -- display name is falsy, even if the preview is then discarded
    let map :=
      match message.reply_to_message_id with
      | some rid =>
        if rid ≠ 0 then
          match lookupMsg messages_dict rid with
          | some reply_to =>
            if pyTruthyOptStr reply_to.from_user then map
            else (anonymizeUserId map reply_to.from_id).2
          | none => map
        else map
      | none => map
    -- `anonymized_id` computed but unused, as in level 1
    let map :=
      if pyTruthyOptStr message.from_id then (anonymizeUserId map message.from_id).2
      else map
    let user_name := pyRenderOptStr message.from_user
    let parts := parts ++ [user_name ++ ":"]
    let text := pyStrip message.text
    let parts := parts ++ (if text ≠ "" then [text] else [])
    (pyJoin " " parts, map)

/-- `PrivacyCleaner._format_reactions_summary`. -/
def formatReactionsSummary (reactions : List Reaction) : String :=
  if reactions = [] then ""
  else
    pyJoin " " (reactions.filterMap (fun r =>
      match r.emoji with
      | some e => if e ≠ "" ∧ r.count > 0 then
          some (e ++ "(" ++ toString r.count ++ ")") else none
      | none => none))

/-- `PrivacyCleaner._format_media_info`.  `if duration:` treats `None` and
`0` as falsy. -/
def formatMediaInfo (message : Message) : String :=
  match message.media_type with
  | none => ""
  | some mt =>
    if mt = "" then ""
    else if mt = "video_file" then
      if pyTruthyOptInt message.duration_seconds then
        "Video (" ++ toString (message.duration_seconds.getD 0) ++ "s)"
      else "Video"
    else if mt = "photo" then "Photo"
    else if mt = "voice_message" then
      if pyTruthyOptInt message.duration_seconds then
        "Voice message (" ++ toString (message.duration_seconds.getD 0) ++ "s)"
      else "Voice message"
    else if mt = "document" then
      if pyTruthyOptStr message.file_name then
        "Document: " ++ message.file_name.getD ""
      else "Document"
    else if mt = "audio_file" then
      if pyTruthyOptStr message.title ∧ pyTruthyOptStr message.performer then
        "Audio: " ++ message.performer.getD "" ++ " - " ++ message.title.getD ""
      else if pyTruthyOptStr message.title then "Audio: " ++ message.title.getD ""
      else "Audio"
    else mt

/-- `PrivacyCleaner._clean_level_3`. -/
def cleanPrivacyLevel3 (map : UserMap) (message : Message)
    (messages_dict : List Message) : String × UserMap :=
  if message.type ≠ "message" ∧ message.type ≠ "service" then ("", map)
  else
    let parts : List String :=
      match message.date with
      | some d => ["[" ++ fmtYmdHMS d ++ "]"]
      | none => []
    let parts := parts ++ ["ID:" ++ toString message.id]
    let parts := parts ++
      (match message.reply_to_message_id with
       | some rid =>
         if rid ≠ 0 ∧ (lookupMsg messages_dict rid).isSome then
           ["[Reply to ID:" ++ toString rid ++ "]"]
         else []
       | none => [])
    let user_name := message.from_user
    let user_id := message.from_id
    let parts := parts ++
      (if pyTruthyOptStr user_name ∧ pyTruthyOptStr user_id then
         [user_name.getD "" ++ " (" ++ user_id.getD "" ++ "):"]
       else if pyTruthyOptStr user_name then [user_name.getD "" ++ ":"]
       else if pyTruthyOptStr user_id then [user_id.getD "" ++ ":"]
       else ["Unknown:"])
    let parts := parts ++ (if message.edited.isSome then ["[EDITED]"] else [])
    let parts := parts ++
      (if pyTruthyOptStr message.forwarded_from then
         ["[Forwarded from: " ++ message.forwarded_from.getD "" ++ "]"]
       else [])
    let text := pyStrip message.text
    let parts := parts ++ (if text ≠ "" then [text] else [])
    let parts := parts ++
      (if message.reactions ≠ [] then
         let summary := formatReactionsSummary message.reactions
         if summary ≠ "" then ["[Reactions: " ++ summary ++ "]"] else []
       else [])
    let media := formatMediaInfo message
    let parts := parts ++ (if media ≠ "" then ["[Media: " ++ media ++ "]"] else [])
    (pyJoin " " parts, map)

/-- The per-message loop of `PrivacyCleaner.clean`: dispatch by level (other
levels `continue`), keep a message's cleaned text followed by a spacer line
whenever `cleaned_msg.strip()` is truthy, threading the anonymization map. -/
def privacyCleanGo (messages_dict : List Message) (level : Nat) (map : UserMap) :
    List Message → List String
  | [] => []
  | message :: rest =>
    match (match level with
           | 1 => some (cleanPrivacyLevel1 map message)
           | 2 => some (cleanPrivacyLevel2 map message messages_dict)
           | 3 => some (cleanPrivacyLevel3 map message messages_dict)
           | _ => none) with
    | none => privacyCleanGo messages_dict level map rest
    | some (cleaned, mapNew) =>
      (if pyStrip cleaned ≠ "" then [cleaned, ""] else []) ++
        privacyCleanGo messages_dict level mapNew rest

/-- `PrivacyCleaner.clean`: chat header, then the per-message lines, joined
by newlines. -/
def privacyClean (level : Nat) (chat : ChatInfo) : String :=
  pyJoin "\n"
    (["Chat: " ++ chat.name, "Type: " ++ chat.type,
      String.mk (List.replicate 50 '='), ""] ++
     privacyCleanGo chat.messages level [] chat.messages)

/-! ## Base cleaner shared helpers (`processors/cleaners/base_cleaner.py`) -/

/-- `BaseCleaner._format_message_basic`. -/
def formatMessageBasic (message : Message) : String :=
  let parts : List String :=
    match message.date with
    | some d => ["[" ++ fmtYmdHMS d ++ "]"]
    | none => []
  let parts := parts ++
    (if pyTruthyOptStr message.from_user then [message.from_user.getD "" ++ ":"]
     else if pyTruthyOptStr message.from_id then [message.from_id.getD "" ++ ":"]
     else [])
  let parts := parts ++ (if message.text ≠ "" then [message.text] else [])
  if parts ≠ [] then pyJoin " " parts else ""

/-- `BaseCleaner._format_message_with_reply`.  The reply preview is
truncated with `[:100]`, not with `REPLY_TEXT_PREVIEW_LENGTH`. -/
def formatMessageWithReply (message : Message) (messages_dict : List Message) : String :=
  let parts : List String :=
    match message.reply_to_message_id with
    | some rid =>
      if rid ≠ 0 then
        match lookupMsg messages_dict rid with
        | some reply_to =>
          let reply_sender :=
            if pyTruthyOptStr reply_to.from_user then reply_to.from_user.getD ""
            else if pyTruthyOptStr reply_to.from_id then reply_to.from_id.getD ""
            else "Unknown"
          let reply_text := reply_to.text.take 100
          if reply_text ≠ "" then
            ["[Replying to " ++ reply_sender ++ ": " ++ reply_text ++ "]"]
          else []
        | none => []
      else []
    | none => []
  let parts := parts ++
    (let basic_msg := formatMessageBasic message
     if basic_msg ≠ "" then [basic_msg] else [])
  if parts ≠ [] then pyJoin "\n" parts else ""

/-! ## Context cleaner (`processors/cleaners/context_cleaner.py`) -/

/-- `ContextCleaner._format_basic_message`.  `message.get("from_user") or
message.get("from_id", "Unknown")`: the `from_id` key is always present in a
`model_dump()` dictionary, so the `"Unknown"` default is dead and a `None`
`from_id` flows into the f-string as the text `None`. -/
def formatBasicMessageCtx (message : Message) : String :=
  let parts : List String :=
    match message.date with
    | some d => ["[" ++ fmtYmdHMS d ++ "]"]
    | none => []
  let sender :=
    if pyTruthyOptStr message.from_user then message.from_user.getD ""
    else pyRenderOptStr message.from_id
  let parts := parts ++ [sender ++ ":"]
  let text := pyStrip message.text
  let parts := parts ++ (if text ≠ "" then [text] else [])
  pyJoin " " parts

/-- The `while` loop of `ContextCleaner._process_reply_chain`: collect the
chain by following `reply_to_message_id` until the current message was
already processed, has no truthy reply id, or the target is missing.  The
loop is embedded with explicit fuel; `collectChain_fuel_stable` below shows
any fuel above the number of unprocessed ids gives the same result, which
is the termination argument for the unbounded source loop. -/
def collectChain (msg_lookup : List Message) :
    Nat → Message → List Int → List Message → List Message × List Int
  | 0, _, processed, chain_messages => (chain_messages, processed)
  | fuel + 1, current_msg, processed, chain_messages =>
    if current_msg.id ∈ processed then (chain_messages, processed)
    else
      let chain_messages := chain_messages ++ [current_msg]
      let processed := current_msg.id :: processed
      match current_msg.reply_to_message_id with
      | some reply_to_id =>
        if reply_to_id ≠ 0 then
          match lookupMsg msg_lookup reply_to_id with
          | some nxt => collectChain msg_lookup fuel nxt processed chain_messages
          | none => (chain_messages, processed)
        else (chain_messages, processed)
      | none => (chain_messages, processed)

/-- The formatting half of `ContextCleaner._process_reply_chain`: reverse
the collected chain to chronological order, skip non-`message` types, and
indent position `i` by `"  " * i`. -/
def renderChainLines (chain_messages : List Message) : List String :=
  chain_messages.reverse.enum.filterMap (fun p =>
    if p.2.type ≠ "message" then none
    else
      let indent := String.mk (List.replicate (2 * p.1) ' ')
      let formatted := formatBasicMessageCtx p.2
      if formatted ≠ "" then some (indent ++ formatted) else none)

/-- `ContextCleaner._process_reply_chain`. -/
def processReplyChain (msg_lookup : List Message) (fuel : Nat)
    (start_message : Message) (processed : List Int) : List String × List Int :=
  let r := collectChain msg_lookup fuel start_message processed []
  (renderChainLines r.1, r.2)

/-- The per-message loop of `ContextCleaner._clean_level_2`, threading the
cross-chain `processed` set. -/
def contextLevel2Go (msg_lookup : List Message) (fuel : Nat) :
    List Message → List Int → List String
  | [], _ => []
  | message :: rest, processed =>
    if message.id ∈ processed then contextLevel2Go msg_lookup fuel rest processed
    else
      let r := processReplyChain msg_lookup fuel message processed
      (r.1 ++ if r.1 ≠ [] then [""] else []) ++ contextLevel2Go msg_lookup fuel rest r.2

/-- `ContextCleaner._clean_level_2` (fuel `length + 1` suffices by
`collectChain_fuel_stable`: one walk visits each id at most once). -/
def contextLevel2Lines (messages : List Message) : List String :=
  contextLevel2Go messages (messages.length + 1) messages []

/-- The chains collected by one level-2 cleaning pass, in walk order (the
instrumented twin of `contextLevel2Go`, returning the `chain_messages`
lists instead of their rendered lines). -/
def contextLevel2Chains (msg_lookup : List Message) (fuel : Nat) :
    List Message → List Int → List (List Message)
  | [], _ => []
  | message :: rest, processed =>
    if message.id ∈ processed then contextLevel2Chains msg_lookup fuel rest processed
    else
      let r := collectChain msg_lookup fuel message processed []
      r.1 :: contextLevel2Chains msg_lookup fuel rest r.2

/-- `ContextCleaner._clean_level_1`. -/
def contextLevel1Lines (messages : List Message) : List String :=
  (messages.map (fun message =>
    if message.type ≠ "message" then []
    else
      let formatted := formatBasicMessageCtx message
      if formatted ≠ "" then [formatted, ""] else [])).flatten

/-- `ContextCleaner._build_conversation_graph`, read back through
`graph.get(msg_id, [])`: the children of `t` are the ids of the messages
whose truthy `reply_to_message_id` equals `t`, in message order. -/
def conversationChildren (messages : List Message) (t : Int) : List Int :=
  messages.filterMap (fun m =>
    match m.reply_to_message_id with
    | some r => if r ≠ 0 ∧ r = t then some m.id else none
    | none => none)

/-- `sorted(replies)` in `_process_conversation_thread`. -/
def sortedChildren (messages : List Message) (t : Int) : List Int :=
  (conversationChildren messages t).mergeSort (fun a b => decide (a ≤ b))

/-- The root set of `_clean_level_3`: messages whose
`reply_to_message_id` is falsy (`None` or `0`). -/
def rootMessages (messages : List Message) : List Message :=
  messages.filter (fun m => !(pyTruthyOptInt m.reply_to_message_id))

/-- `ContextCleaner._format_reactions`. -/
def formatReactionsCtx (reactions : List Reaction) : String :=
  if reactions = [] then ""
  else
    pyJoin ", " (reactions.filterMap (fun r =>
      match r.emoji with
      | some e => if e ≠ "" ∧ r.count > 0 then
          some (e ++ "×" ++ toString r.count) else none
      | none => none))

/-- `ContextCleaner._get_media_context`. -/
def getMediaContext (message : Message) : String :=
  match message.media_type with
  | none => ""
  | some mt =>
    if mt = "" then ""
    else
      let context_parts := [mt]
      let context_parts := context_parts ++
        (if pyTruthyOptStr message.file_name then
           ["\x27" ++ message.file_name.getD "" ++ "\x27"]
         else [])
      let context_parts := context_parts ++
        (if pyTruthyOptInt message.duration_seconds then
           [toString (message.duration_seconds.getD 0) ++ "s"]
         else [])
      let context_parts := context_parts ++
        (if pyTruthyOptInt message.width ∧ pyTruthyOptInt message.height then
           [toString (message.width.getD 0) ++ "×" ++ toString (message.height.getD 0)]
         else [])
      pyJoin " " context_parts

/-- `ContextCleaner._format_context_message`. -/
def formatContextMessage (message : Message) (depth : Nat) : String :=
  let indent := String.mk (List.replicate (2 * depth) ' ')
  let parts : List String :=
    match message.date with
    | some d => ["[" ++ fmtYmdHMS d ++ "]"]
    | none => []
  let parts := parts ++ ["#" ++ toString message.id]
  let parts := parts ++ (if message.edited.isSome then ["[EDITED]"] else [])
  let sender :=
    if pyTruthyOptStr message.from_user then message.from_user.getD ""
    else pyRenderOptStr message.from_id
  let parts := parts ++ [sender ++ ":"]
  let text := pyStrip message.text
  let parts := parts ++ (if text ≠ "" then [text] else [])
  let parts := parts ++
    (if message.reactions ≠ [] then
       ["[Reactions: " ++ formatReactionsCtx message.reactions ++ "]"]
     else [])
  let media_info := getMediaContext message
  let parts := parts ++ (if media_info ≠ "" then ["[Media: " ++ media_info ++ "]"] else [])
  let parts := parts ++
    (if pyTruthyOptStr message.forwarded_from then
       ["[Forwarded from: " ++ message.forwarded_from.getD "" ++ "]"]
     else [])
  indent ++ pyJoin " " parts

/-- The recursive `process_message` closure of
`ContextCleaner._process_conversation_thread`, with explicit fuel (the
source recursion has no visited set; its call chains are simple paths when
ids are distinct, so fuel `length + 1` covers every reachable call). -/
def processMessageL3 (msg_lookup messages : List Message) :
    Nat → Int → Nat → List String
  | 0, _, _ => []
  | fuel + 1, msg_id, depth =>
    match lookupMsg msg_lookup msg_id with
    | none => []
    | some message =>
      if message.type ≠ "message" then []
      else
        let formatted := formatContextMessage message depth
        (if formatted ≠ "" then [formatted] else []) ++
          ((sortedChildren messages msg_id).map
            (fun reply_id => processMessageL3 msg_lookup messages fuel reply_id (depth + 1))).flatten

/-- Instrumented twin of `processMessageL3`: the visited `(message, depth)`
pairs, in emission order. -/
def visitL3 (msg_lookup messages : List Message) :
    Nat → Int → Nat → List (Message × Nat)
  | 0, _, _ => []
  | fuel + 1, msg_id, depth =>
    match lookupMsg msg_lookup msg_id with
    | none => []
    | some message =>
      if message.type ≠ "message" then []
      else
        (message, depth) ::
          ((sortedChildren messages msg_id).map
            (fun reply_id => visitL3 msg_lookup messages fuel reply_id (depth + 1))).flatten

/-- `ContextCleaner._clean_level_3`: one thread block (plus spacer) per
root message. -/
def contextLevel3Lines (messages : List Message) : List String :=
  ((rootMessages messages).map (fun root_msg =>
    processMessageL3 messages messages (messages.length + 1) root_msg.id 0 ++ [""])).flatten

/-- The ids of the messages visited (hence emitted) by a whole level-3
cleaning pass. -/
def contextLevel3VisitedIds (messages : List Message) : List Int :=
  ((rootMessages messages).map (fun root_msg =>
    (visitL3 messages messages (messages.length + 1) root_msg.id 0).map (fun p => p.1.id))).flatten

/-- `ContextCleaner.clean`. -/
def contextClean (level : Nat) (chat : ChatInfo) : String :=
  pyJoin "\n"
    (["Chat: " ++ chat.name, "Type: " ++ chat.type,
      String.mk (List.replicate 50 '='), ""] ++
     (match level with
      | 1 => contextLevel1Lines chat.messages
      | 2 => contextLevel2Lines chat.messages
      | 3 => contextLevel3Lines chat.messages
      | _ => []))

/-! ## Size cleaner, level 1 (`processors/cleaners/size_cleaner.py`) -/

/-- `SizeCleaner._clean_level_1`.  The source returns `""` as soon as the
stripped text is empty, so its later `if not text and (links or mentions)`
branch is unreachable; it is embedded verbatim nonetheless. -/
def cleanSizeLevel1 (message : Message) : String :=
  if message.type ≠ "message" then ""
  else
    let text := pyStrip message.text
    if text = "" then ""
    else if text.length < 3 then ""
    else
      let links := message.text_entities.filterMap (fun e =>
        if e.type = "link" then some e.text else none)
      let mentions := message.text_entities.filterMap (fun e =>
        if e.type = "mention" ∨ e.type = "mention_name" then some e.text else none)
      if text = "" ∧ (links ≠ [] ∨ mentions ≠ []) then
        pyJoin " " (links ++ mentions)
      else if text.length > 2 then text
      else ""

/-- The per-message loop of `SizeCleaner.clean` at level 1: no header, no
spacer lines, keep messages whose cleaned text strips truthy. -/
def sizeCleanLevel1 (chat : ChatInfo) : String :=
  pyJoin "\n"
    ((chat.messages.map (fun message =>
      let cleaned := cleanSizeLevel1 message
      if pyStrip cleaned ≠ "" then [cleaned] else [])).flatten)

/-! ## Export parser (`processors/telegram_parser.py`)

Raw export records are embedded as typed structures whose fields are
`Option`s: an absent JSON key is `none`.  The one failure Pydantic
validation can raise on such a typed record is a missing required `id`,
which is exactly how `_parse_message`'s `except` branch is exercised. -/

/-- One element of a raw `text` array: a plain string or an entity object
(of which only the `text` key is read, and may be absent). -/
inductive RawTextPart where
  | str (s : String)
  | obj (text : Option String)
deriving DecidableEq, Repr

/-- A raw `text` field: a string or a mixed array. -/
inductive RawText where
  | str (s : String)
  | arr (parts : List RawTextPart)
deriving DecidableEq, Repr

structure RawTextEntity where
  type : Option String := none
  text : Option String := none
  href : Option String := none
  user_id : Option String := none
deriving DecidableEq, Repr

structure RawRecent where
  from_name : Option String := none
  from_id : Option String := none
  date : Option String := none
deriving DecidableEq, Repr

structure RawReaction where
  type : Option String := none
  emoji : Option String := none
  count : Option Int := none
  recent : Option (List RawRecent) := none
deriving DecidableEq, Repr

/-- A raw message record (`from` is a Lean keyword, hence `from_name`). -/
structure RawMessage where
  id : Option Int := none
  type : Option String := none
  date : Option String := none
  date_unixtime : Option Int := none
  edited : Option String := none
  edited_unixtime : Option Int := none
  from_name : Option String := none
  from_id : Option String := none
  reply_to_message_id : Option Int := none
  text : Option RawText := none
  text_entities : Option (List RawTextEntity) := none
  reactions : Option (List RawReaction) := none
  forwarded_from : Option String := none
  via_bot : Option String := none
  media_type : Option String := none
  mime_type : Option String := none
  duration_seconds : Option Int := none
  width : Option Int := none
  height : Option Int := none
  file : Option String := none
  file_name : Option String := none
  file_size : Option Int := none
  thumbnail : Option String := none
  thumbnail_file_size : Option Int := none
  photo : Option String := none
  performer : Option String := none
  title : Option String := none
deriving DecidableEq, Repr

/-- A raw export document's top level. -/
structure RawExport where
  name : Option String := none
  type : Option String := none
  id : Option Int := none
  messages : Option (List RawMessage) := none
deriving DecidableEq, Repr

def supportedTypes : List String :=
  ["message", "service", "photo", "video", "voice_message", "audio_file",
   "document", "sticker", "animation"]

def digitVal (c : Char) : Option Nat :=
  if c.isDigit then some (c.toNat - 48) else none

/-- `TelegramParser._parse_date` for the Telegram export form
`YYYY-MM-DDTHH:MM:SS` (fractional seconds and UTC offsets, which Telegram
exports do not emit, are not modelled; any other shape yields `None`, as
the source's caught `ValueError` does). -/
def parseDate : Option String → Option PyDateTime
  | none => none
  | some s =>
    if s = "" then none
    else
      match s.data with
      | [y1, y2, y3, y4, '-', m1, m2, '-', d1, d2, 'T', h1, h2, ':', n1, n2, ':', s1, s2] =>
        match digitVal y1, digitVal y2, digitVal y3, digitVal y4,
              digitVal m1, digitVal m2, digitVal d1, digitVal d2,
              digitVal h1, digitVal h2, digitVal n1, digitVal n2,
              digitVal s1, digitVal s2 with
        | some a, some b, some c, some d, some e, some f, some g, some h,
          some i, some j, some k, some l, some m, some n =>
          let mo := 10 * e + f
          let da := 10 * g + h
          let ho := 10 * i + j
          let mi := 10 * k + l
          let se := 10 * m + n
          if 1 ≤ mo ∧ mo ≤ 12 ∧ 1 ≤ da ∧ da ≤ 31 ∧ ho ≤ 23 ∧ mi ≤ 59 ∧ se ≤ 59 then
            some ⟨1000 * a + 100 * b + 10 * c + d, mo, da, ho, mi, se⟩
          else none
        | _, _, _, _, _, _, _, _, _, _, _, _, _, _ => none
      | _ => none

/-- `TelegramParser._parse_text`: flatten a mixed array into one string,
keeping plain strings and entity objects that carry a `text` key. -/
def parseText : Option RawText → String
  | none => ""
  | some (.str s) => s
  | some (.arr parts) =>
    pyJoin "" (parts.filterMap (fun p =>
      match p with
      | .str s => some s
      | .obj (some tx) => some tx
      | .obj none => none))

/-- `TelegramParser._parse_text_entities` (on typed records the per-entity
`except` branch is unreachable, so every entity is kept). -/
def parseTextEntities (entities : Option (List RawTextEntity)) : List TextEntity :=
  (entities.getD []).map (fun e =>
    { type := e.type.getD "plain", text := e.text.getD "",
      href := e.href, user_id := e.user_id })

/-- `TelegramParser._parse_recent_reactions`. -/
def parseRecentReactions (recent : Option (List RawRecent)) : List RecentReaction :=
  (recent.getD []).map (fun r =>
    { from_name := r.from_name, from_id := r.from_id, date := parseDate r.date })

/-- `TelegramParser._parse_reactions`. -/
def parseReactions (reactions : Option (List RawReaction)) : List Reaction :=
  (reactions.getD []).map (fun r =>
    { type := r.type.getD "emoji", emoji := r.emoji, count := r.count.getD 0,
      recent := parseRecentReactions r.recent })

/-- The `Message(...)` construction inside `_parse_message`: Pydantic
raises when the required `id` is absent; on a typed record every other
assignment succeeds. -/
def buildMessage (m : RawMessage) : Except String Message :=
  match m.id with
  | none => .error "validation error for Message: id is required"
  | some mid => .ok
    { id := mid
      type := m.type.getD ""
      date := parseDate m.date
      date_unixtime := m.date_unixtime
      edited := parseDate m.edited
      edited_unixtime := m.edited_unixtime
      from_user := m.from_name
      from_id := m.from_id
      reply_to_message_id := m.reply_to_message_id
      text := parseText m.text
      text_entities := parseTextEntities m.text_entities
      reactions := parseReactions m.reactions
      forwarded_from := m.forwarded_from
      via_bot := m.via_bot
      media_type := m.media_type
      mime_type := m.mime_type
      duration_seconds := m.duration_seconds
      width := m.width
      height := m.height
      file := m.file
      file_name := m.file_name
      file_size := m.file_size
      thumbnail := m.thumbnail
      thumbnail_file_size := m.thumbnail_file_size
      photo := m.photo
      performer := m.performer
      title := m.title }

/-- `TelegramParser._parse_message`: skip unsupported types, and turn any
construction failure into a skip (`except` → `return None`). -/
def parseMessage (m : RawMessage) : Option Message :=
  let msg_type := m.type.getD ""
  if ¬ (msg_type ∈ supportedTypes) then none
  else
    match buildMessage m with
    | .ok msg => some msg
    | .error _ => none

/-- `TelegramParser._is_valid_telegram_export`: the four required keys, a
non-empty `messages` array whose first record has an `id` key. -/
def isValidTelegramExport (d : RawExport) : Bool :=
  d.name.isSome && d.type.isSome && d.id.isSome &&
    (match d.messages with
     | some msgs =>
       decide (msgs.length ≠ 0) &&
         (match msgs.head? with
          | some first_msg => first_msg.id.isSome
          | none => false)
     | none => false)

/-- `TelegramParser.parse_data`: fatal `ValueError` on an invalid shape,
otherwise a `ChatInfo` collecting every successfully parsed message in
order. -/
def parseData (d : RawExport) (source_file : String) : Except String ChatInfo :=
  if ¬ isValidTelegramExport d then .error "Invalid Telegram export format"
  else .ok
    { name := d.name.getD "Unknown Chat"
      type := d.type.getD "unknown"
      id := toString (d.id.getD 0)
      messages := (d.messages.getD []).filterMap parseMessage
      source_file := source_file }

/-! ## Spec-shaped characterizations

Definitions that restate the specification's wording, to be compared with
the source-derived definitions above. -/

/-- The specification's description of one privacy level-1 message: `one
"pseudonym: text" line per ordinary message with non-empty trimmed text
(messages whose text is empty after trimming are omitted entirely)`.  The
"pseudonym" slot is the value the code actually renders there, so that the
structural part of the claim (which lines appear, and nothing else) can be
isolated from the pseudonym-resolution defect treated in claim C3. -/
def privacyLevel1Line (m : Message) : Option String :=
  if m.type = "message" ∧ pyStrip m.text ≠ "" then
    some (pyRenderOptStr m.from_user ++ ": " ++ pyStrip m.text)
  else none

/-- The ids of the messages in the unvisited part of a level-2 walk's
search space: the potential function of the chain walk. -/
def chainIdSet (messages : List Message) : Finset Int :=
  (messages.map Message.id).toFinset

/-! ## Concrete fixtures for witnesses and counterexamples -/

/-- C1: `"user123"` has no display name; its pseudonym is hash-derived. -/
def c1Map0 : UserMap := []

/-- C2: message A of the synthetic two-cycle (A replies to B). -/
def c2MsgA : Message :=
  { id := 1, type := "message", text := "A", reply_to_message_id := some 2 }

/-- C2: message B of the synthetic two-cycle (B replies to A). -/
def c2MsgB : Message :=
  { id := 2, type := "message", text := "B", reply_to_message_id := some 1 }

/-- C3: an ordinary message with a stable id but no display name. -/
def c3MsgIdOnly : Message :=
  { id := 1, type := "message", from_id := some "user123", text := "hi" }

/-- C3: an ordinary message with neither display name nor id. -/
def c3MsgNoIds : Message :=
  { id := 2, type := "message", text := "hi" }

/-- C5: `{id:1, from:"Alice", text:"hi"}`. -/
def c5MsgA : Message :=
  { id := 1, type := "message", from_user := some "Alice", text := "hi" }

/-- C5: `{id:2, from:"Bob", text:"hello back", reply_to_message_id:1}`. -/
def c5MsgB : Message :=
  { id := 2, type := "message", from_user := some "Bob", text := "hello back",
    reply_to_message_id := some 1 }

/-- C5: the two-message example chat. -/
def c5Chat : ChatInfo :=
  { name := "Example Chat", type := "personal_chat", id := "123",
    messages := [c5MsgA, c5MsgB] }

/-- C6 witness: a root message. -/
def c6MsgRoot : Message := { id := 1, type := "message", text := "a" }

/-- C6 witness: a reply whose target id 5 is absent. -/
def c6MsgOrphan : Message :=
  { id := 2, type := "message", text := "b", reply_to_message_id := some 5 }

/-- C6 counterexample: `reply_to_message_id` is set (to 0), the target is
absent, yet Python truthiness treats the field as unset. -/
def c6MsgReplyZero : Message :=
  { id := 1, type := "message", text := "hi", reply_to_message_id := some 0 }

/-- C7: a well-formed raw record. -/
def c7GoodRec (i : Int) : RawMessage :=
  { id := some i, type := some "message", text := some (.str "x") }

/-- C7: a record whose `Message(...)` construction raises (`id` missing). -/
def c7BadRec : RawMessage := { id := none, type := some "message" }

/-- C7: a structurally valid export with nine good records and one bad
one. -/
def c7Export : RawExport :=
  { name := some "c", type := some "personal_chat", id := some 9,
    messages := some [c7GoodRec 1, c7GoodRec 2, c7GoodRec 3, c7GoodRec 4,
      c7BadRec, c7GoodRec 5, c7GoodRec 6, c7GoodRec 7, c7GoodRec 8, c7GoodRec 9] }

/-- C8: an ordinary message with no plain text but a link entity. -/
def c8Msg : Message :=
  { id := 1, type := "message", text := "",
    text_entities := [{ type := "link", text := "https://github.com/x" }] }

/-- C8: a chat holding only `c8Msg`. -/
def c8Chat : ChatInfo := { name := "c", type := "t", id := "1", messages := [c8Msg] }

/-- C9: a reply target whose text is 60 characters long. -/
def c9Target : Message :=
  { id := 1, type := "message", from_user := some "U",
    text := String.mk (List.replicate 60 'a') }

/-- C9: a message replying to `c9Target`. -/
def c9Reply : Message :=
  { id := 2, type := "message", from_user := some "V", text := "ok",
    reply_to_message_id := some 1 }

/-- C10: `{id:1, from:"Alice", text:"hi"}`. -/
def c10MsgA : Message :=
  { id := 1, type := "message", from_user := some "Alice", text := "hi" }

/-- C10: `{id:2, from:"Bob", text:"hello back", reply_to_message_id:1}`. -/
def c10MsgB : Message :=
  { id := 2, type := "message", from_user := some "Bob", text := "hello back",
    reply_to_message_id := some 1 }

/-- C10: the two-message example chat. -/
def c10Chat : ChatInfo :=
  { name := "Example Chat", type := "personal_chat", id := "123",
    messages := [c10MsgA, c10MsgB] }

/-! ## Supporting lemmas -/

theorem pyJoin_cons (sep a : String) (l : List String) (h : l ≠ []) :
    pyJoin sep (a :: l) = a ++ sep ++ pyJoin sep l := by
  cases l with
  | nil => exact absurd rfl h
  | cons b t => rfl

theorem stripChars_eq_nil_iff (l : List Char) :
    stripChars l = [] ↔ ∀ c ∈ l, isPyWhitespace c := by
  unfold stripChars
  rw [List.reverse_eq_nil_iff, List.dropWhile_eq_nil_iff, ]
  constructor
  · intro h c hc
    rcases List.mem_append.mp ((List.takeWhile_append_dropWhile (p := isPyWhitespace) (l := l)) ▸ hc) with h1 | h1
    · exact List.mem_takeWhile_imp h1
    · exact h c (List.mem_reverse.mpr h1)
  · intro h c hc
    exact h c ((List.dropWhile_sublist isPyWhitespace).mem (List.mem_reverse.mp hc))

theorem pyStrip_ne_empty_of_mem {s : String} {c : Char}
    (hc : c ∈ s.data) (hw : isPyWhitespace c = false) : pyStrip s ≠ "" := by
  intro h
  have hdata : stripChars s.data = [] := congrArg String.data h
  have := (stripChars_eq_nil_iff s.data).mp hdata c hc
  simp [hw] at this

theorem colon_mem_data (x t : String) : ':' ∈ (x ++ ": " ++ t).data := by
  simp [String.data_append]

theorem lookup_append_of_none {α β : Type} [BEq α] (l₁ l₂ : List (α × β)) (a : α)
    (h : l₁.lookup a = none) : (l₁ ++ l₂).lookup a = l₂.lookup a := by
  induction l₁ with
  | nil => rfl
  | cons p t ih =>
    obtain ⟨k, b⟩ := p
    cases hk : a == k with
    | true => simp [List.lookup, hk] at h
    | false =>
      simp only [List.lookup, hk] at h ⊢
      exact ih h

/-! ## Claim theorems -/

/-- C3: under the privacy strategy at levels 1 and 2, when a display name
is absent the rendered sender is the literal f-string text `None` — both
when a `from_id` is present (the claim expects the anonymized id) and when
it is absent (the claim expects `Anonymous`).  The `message.get("from_user",
anonymized_id)` fallback is dead because `model_dump()` keeps the key. -/
theorem c3_sender_renders_none_literal :
    (cleanPrivacyLevel1 [] c3MsgIdOnly).1 = "None: hi" ∧
    (cleanPrivacyLevel1 [] c3MsgNoIds).1 = "None: hi" ∧
    (cleanPrivacyLevel2 [] c3MsgIdOnly []).1 = "None: hi" ∧
    (cleanPrivacyLevel1 [] c3MsgIdOnly).1 ≠
      "User_" ++ (sha256HexOfString "user123").take ANONYMIZED_USER_ID_LENGTH ++ ": hi" ∧
    (cleanPrivacyLevel1 [] c3MsgNoIds).1 ≠ "Anonymous: hi" := by
  decide

/-- C5: on the two-message Alice/Bob chat, context level 2 emits two
separate one-line chain blocks with no indentation — not one block with
message 2 indented two spaces.  The walk marks message 1 processed before
message 2's chain starts, so the backward walk from message 2 stops at
once. -/
theorem c5_level2_two_blocks_unindented :
    contextLevel2Lines [c5MsgA, c5MsgB] = ["Alice: hi", "", "Bob: hello back", ""] ∧
    contextLevel2Lines [c5MsgA, c5MsgB] ≠ ["Alice: hi", "  Bob: hello back", ""] ∧
    contextClean 2 c5Chat =
      "Chat: Example Chat\nType: personal_chat\n" ++
        String.mk (List.replicate 50 '=') ++ "\n\nAlice: hi\n\nBob: hello back\n" := by
  decide

/-- C8: an ordinary message whose trimmed text is empty but which carries a
link entity is omitted entirely by size level 1: the `if not text` early
return fires before the entity-fallback branch, which is unreachable. -/
theorem c8_empty_text_link_message_omitted :
    cleanSizeLevel1 c8Msg = "" ∧
    sizeCleanLevel1 c8Chat = "" ∧
    cleanSizeLevel1 c8Msg ≠ "https://github.com/x" := by
  decide

/-- C1 counterexample: for the id `""` the anonymizer returns `Anonymous`,
not `"User_"` followed by the 12-hex prefix of SHA-256 of the id, so the
claim's universal statement fails at the empty id. -/
theorem c1_counterexample_empty_id :
    (anonymizeUserId c1Map0 (some "")).1 = "Anonymous" ∧
    (anonymizeUserId c1Map0 (some "")).1 ≠
      "User_" ++ (sha256HexOfString "").take ANONYMIZED_USER_ID_LENGTH := by
  decide

/-- C6 counterexample: a message whose `reply_to_message_id` is set to `0`
with no message of id 0 present is treated as a root (Python `not 0`) and
is emitted in level-3 output, refuting the claim for that input. -/
theorem c6_counterexample_reply_zero :
    c6MsgReplyZero.reply_to_message_id = some 0 ∧
    (0 : Int) ∉ [c6MsgReplyZero].map Message.id ∧
    c6MsgReplyZero.id ∈ contextLevel3VisitedIds [c6MsgReplyZero] := by
  decide

/-- C9 counterexample: the base cleaner's shared reply formatter keeps 60
characters of a 60-character reply text — it truncates at 100, not at the
claimed uniform 50. -/
theorem c9_counterexample_base_preview_100 :
    formatMessageWithReply c9Reply [c9Target, c9Reply] =
      "[Replying to U: " ++ String.mk (List.replicate 60 'a') ++ "]" ++ "\n" ++ "V: ok" ∧
    formatMessageWithReply c9Reply [c9Target, c9Reply] ≠
      "[Replying to U: " ++ String.mk (List.replicate 50 'a') ++ "]" ++ "\n" ++ "V: ok" := by
  decide

/-- C10 counterexample: privacy level-1 output is not exactly the two
message lines: `PrivacyCleaner.clean` always prepends a chat header and
inserts a spacer line after each message. -/
theorem c10_counterexample_header_present :
    privacyClean 1 c10Chat ≠ "Alice: hi\nBob: hello back" ∧
    privacyClean 1 c10Chat ≠ "Alice: hi\n\nBob: hello back" := by
  decide

/-- C1 (amended to nonempty ids: `anonymize` maps the falsy id `""` to
`Anonymous` without hashing): within one cleaner instance whose stored
mapping for `a`, if any, is the hash-derived one (true of every reachable
instance state, and trivially of a fresh one), anonymizing `a` twice
returns the identical pseudonym, which is `"User_"` followed by the first
12 hex characters of the SHA-256 digest of `a`. -/
theorem c1_anonymize_twice_sha_prefix (a : String) (map : UserMap)
    (ha : a ≠ "")
    (hm : map.lookup a = none ∨
      map.lookup a = some ("User_" ++ (sha256HexOfString a).take ANONYMIZED_USER_ID_LENGTH)) :
    (anonymizeUserId map (some a)).1 =
      (anonymizeUserId (anonymizeUserId map (some a)).2 (some a)).1 ∧
    (anonymizeUserId map (some a)).1 =
      "User_" ++ (sha256HexOfString a).take ANONYMIZED_USER_ID_LENGTH := by
  rcases hm with hm | hm
  · have h1 : anonymizeUserId map (some a) =
        ("User_" ++ (sha256HexOfString a).take ANONYMIZED_USER_ID_LENGTH,
          map ++ [(a, "User_" ++ (sha256HexOfString a).take ANONYMIZED_USER_ID_LENGTH)]) := by
      simp [anonymizeUserId, ha, hm]
    have h2 : (map ++ [(a, "User_" ++ (sha256HexOfString a).take ANONYMIZED_USER_ID_LENGTH)]).lookup a
        = some ("User_" ++ (sha256HexOfString a).take ANONYMIZED_USER_ID_LENGTH) := by
      rw [lookup_append_of_none _ _ _ hm]
      simp [List.lookup]
    rw [h1]
    simp [anonymizeUserId, ha, h2]
  · have h1 : anonymizeUserId map (some a) =
        ("User_" ++ (sha256HexOfString a).take ANONYMIZED_USER_ID_LENGTH, map) := by
      simp [anonymizeUserId, ha, hm]
    rw [h1]
    simp [anonymizeUserId, ha, hm]

theorem pyStrip_empty : pyStrip "" = "" := rfl

/-- The level-1 privacy pass emits, per message, exactly the spec-shaped
line (plus its spacer) and nothing else, for any instance state. -/
theorem privacyCleanGo_level1 (lookup : List Message) :
    ∀ (msgs : List Message) (map : UserMap),
      privacyCleanGo lookup 1 map msgs =
        (msgs.map (fun m =>
          match privacyLevel1Line m with
          | some line => [line, ""]
          | none => [])).flatten := by
  intro msgs
  induction msgs with
  | nil => intro map; rfl
  | cons m rest ih =>
    intro map
    simp only [privacyCleanGo, List.map_cons, List.flatten_cons]
    rw [ih]
    congr 1
    by_cases h1 : m.type = "message"
    · by_cases h2 : pyStrip m.text = ""
      · simp [cleanPrivacyLevel1, privacyLevel1Line, h1, h2, pyStrip_empty]
      · have hne : pyStrip (pyRenderOptStr m.from_user ++ ": " ++ pyStrip m.text) ≠ "" :=
          pyStrip_ne_empty_of_mem (colon_mem_data _ _) (by decide)
        simp [cleanPrivacyLevel1, privacyLevel1Line, h1, h2, hne]
    · simp [cleanPrivacyLevel1, privacyLevel1Line, h1, pyStrip_empty]

/-- C10 (amended): privacy level-1 output is the fixed four-line chat
header followed by exactly one `pseudonym: text` line (plus a spacer line)
per ordinary message with non-empty trimmed text, and nothing else;
messages with empty trimmed text are omitted entirely.  On the Alice/Bob
example the message lines are exactly `Alice: hi` and `Bob: hello back`,
in order, after the header. -/
theorem c10_level1_lines_structure :
    (∀ chat : ChatInfo, privacyClean 1 chat =
      pyJoin "\n" (["Chat: " ++ chat.name, "Type: " ++ chat.type,
        String.mk (List.replicate 50 '='), ""] ++
        (chat.messages.map (fun m =>
          match privacyLevel1Line m with
          | some line => [line, ""]
          | none => [])).flatten)) ∧
    privacyClean 1 c10Chat =
      "Chat: Example Chat\nType: personal_chat\n" ++
        String.mk (List.replicate 50 '=') ++ "\n\nAlice: hi\n\nBob: hello back\n" := by
  constructor
  · intro chat
    unfold privacyClean
    rw [privacyCleanGo_level1]
  · decide

/-- C9 (amended): the two reply-context formatting paths use different
truncation lengths: the privacy level-2 reply preview truncates the
replied-to text to `REPLY_TEXT_PREVIEW_LENGTH = 50` characters, while the
base cleaner's shared reply formatter truncates to 100 characters. -/
theorem c9_reply_preview_truncations (m r : Message) (lookup : List Message)
    (rid : Int) (map : UserMap)
    (h1 : m.reply_to_message_id = some rid) (h2 : rid ≠ 0)
    (h3 : lookupMsg lookup rid = some r)
    (h4 : r.text.take 100 ≠ "")
    (h5 : r.text.take REPLY_TEXT_PREVIEW_LENGTH ≠ "")
    (h6 : pyTruthyOptStr r.from_user = true)
    (h7 : m.type = "message") (h8 : m.date = none) :
    (∃ rest, formatMessageWithReply m lookup =
      "[Replying to " ++ r.from_user.getD "" ++ ": " ++ r.text.take 100 ++ "]" ++ rest) ∧
    (∃ rest, (cleanPrivacyLevel2 map m lookup).1 =
      "[Reply to " ++ r.from_user.getD "" ++ ": " ++
        r.text.take REPLY_TEXT_PREVIEW_LENGTH ++ "...]" ++ rest) ∧
    REPLY_TEXT_PREVIEW_LENGTH = 50 := by
  refine ⟨?_, ?_, rfl⟩
  · by_cases hb : formatMessageBasic m = ""
    · refine ⟨"", ?_⟩
      simp [formatMessageWithReply, h1, h2, h3, h4, h6, hb, pyJoin, String.append_assoc]
    · refine ⟨"\n" ++ formatMessageBasic m, ?_⟩
      have step : formatMessageWithReply m lookup =
          "[Replying to " ++ (if pyTruthyOptStr r.from_user then r.from_user.getD ""
            else if pyTruthyOptStr r.from_id then r.from_id.getD "" else "Unknown") ++
            ": " ++ r.text.take 100 ++ "]" ++ "\n" ++ formatMessageBasic m := by
        simp [formatMessageWithReply, h1, h2, h3, h4, hb, pyJoin, String.append_assoc]
      rw [step]
      simp only [h6, if_true, ite_true, String.append_assoc]
  · refine ⟨" " ++ pyJoin " " ([pyRenderOptStr m.from_user ++ ":"] ++
      (if pyStrip m.text ≠ "" then [pyStrip m.text] else [])), ?_⟩
    simp [cleanPrivacyLevel2, h1, h2, h3, h5, h6, h7, h8, pyJoin, String.append_assoc]
    rfl

/-- C9 witness: the amended theorem applied to a reply to a 60-character
message. -/
theorem c9_witness_sixty_chars :
    c9Reply.reply_to_message_id = some 1 ∧
    (1 : Int) ≠ 0 ∧
    lookupMsg [c9Target, c9Reply] 1 = some c9Target ∧
    c9Target.text.take 100 ≠ "" ∧
    c9Target.text.take REPLY_TEXT_PREVIEW_LENGTH ≠ "" ∧
    pyTruthyOptStr c9Target.from_user = true ∧
    c9Reply.type = "message" ∧
    c9Reply.date = none ∧
    ((∃ rest, formatMessageWithReply c9Reply [c9Target, c9Reply] =
      "[Replying to " ++ c9Target.from_user.getD "" ++ ": " ++
        c9Target.text.take 100 ++ "]" ++ rest) ∧
     (∃ rest, (cleanPrivacyLevel2 [] c9Reply [c9Target, c9Reply]).1 =
      "[Reply to " ++ c9Target.from_user.getD "" ++ ": " ++
        c9Target.text.take REPLY_TEXT_PREVIEW_LENGTH ++ "...]" ++ rest) ∧
     REPLY_TEXT_PREVIEW_LENGTH = 50) :=
  ⟨rfl, by decide, by decide, by decide, by decide, by decide, rfl, rfl,
    c9_reply_preview_truncations c9Reply c9Target [c9Target, c9Reply] 1 []
      rfl (by decide) (by decide) (by decide) (by decide) (by decide) rfl rfl⟩

theorem lookupMsg_mem {msgs : List Message} {i : Int} {m : Message}
    (h : lookupMsg msgs i = some m) : m ∈ msgs ∧ m.id = i := by
  unfold lookupMsg at h
  refine ⟨List.mem_reverse.mp (List.mem_of_find?_eq_some h), ?_⟩
  have := List.find?_some h
  simpa using this

theorem chain_card_decrease {msgs : List Message} {processed : List Int} {x : Int}
    (hx : x ∈ chainIdSet msgs) (hp : x ∉ processed) :
    (chainIdSet msgs \ (x :: processed).toFinset).card <
      (chainIdSet msgs \ processed.toFinset).card := by
  apply Finset.card_lt_card
  constructor
  · intro a ha
    rw [Finset.mem_sdiff] at ha ⊢
    refine ⟨ha.1, fun hmem => ha.2 ?_⟩
    rw [List.toFinset_cons, Finset.mem_insert]
    exact Or.inr hmem
  · intro hsub
    have hx2 : x ∈ chainIdSet msgs \ processed.toFinset := by
      rw [Finset.mem_sdiff]
      exact ⟨hx, fun hmem => hp (List.mem_toFinset.mp hmem)⟩
    have := hsub hx2
    rw [Finset.mem_sdiff, List.toFinset_cons, Finset.mem_insert] at this
    exact this.2 (Or.inl rfl)

/-- One-step unfolding of the chain walk at positive fuel. -/
theorem collectChain_succ (lk : List Message) (fuel : Nat) (cur : Message)
    (p : List Int) (acc : List Message) :
    collectChain lk (fuel + 1) cur p acc =
      if cur.id ∈ p then (acc, p)
      else
        match cur.reply_to_message_id with
        | some rid =>
          if rid ≠ 0 then
            match lookupMsg lk rid with
            | some nxt => collectChain lk fuel nxt (cur.id :: p) (acc ++ [cur])
            | none => (acc ++ [cur], cur.id :: p)
          else (acc ++ [cur], cur.id :: p)
        | none => (acc ++ [cur], cur.id :: p) := rfl

/-- Fuel-independence of the reply-chain walk above the number of
unvisited ids: the source `while` loop terminates because each iteration
moves a fresh id from the search space into `processed`. -/
theorem collectChain_fuel_stable (msgs : List Message) :
    ∀ f1 f2 : Nat, ∀ (cur : Message) (processed : List Int) (acc : List Message),
      cur.id ∈ chainIdSet msgs →
      (chainIdSet msgs \ processed.toFinset).card < f1 →
      (chainIdSet msgs \ processed.toFinset).card < f2 →
      collectChain msgs f1 cur processed acc = collectChain msgs f2 cur processed acc := by
  intro f1
  induction f1 with
  | zero => intro f2 cur p acc _ h1 _; omega
  | succ a ih =>
    intro f2 cur p acc hcur h1 h2
    cases f2 with
    | zero => omega
    | succ b =>
      rw [collectChain_succ, collectChain_succ]
      by_cases hp : cur.id ∈ p
      · rw [if_pos hp, if_pos hp]
      · rw [if_neg hp, if_neg hp]
        cases hr : cur.reply_to_message_id with
        | none => dsimp only
        | some rid =>
          dsimp only
          by_cases h0 : rid ≠ 0
          · rw [if_pos h0, if_pos h0]
            cases hl : lookupMsg msgs rid with
            | none => dsimp only
            | some nxt =>
              dsimp only
              have hm := lookupMsg_mem hl
              have hnxt : nxt.id ∈ chainIdSet msgs := by
                rw [chainIdSet, List.mem_toFinset]
                exact List.mem_map_of_mem Message.id hm.1
              have hdec := chain_card_decrease hcur hp
              exact ih b nxt (cur.id :: p) (acc ++ [cur]) hnxt (by omega) (by omega)
          · rw [if_neg h0, if_neg h0]

/-- The chain accumulator only ever grows by appending: a walk from any
accumulator equals the walk from the empty one, prefixed. -/
theorem collectChain_acc (lk : List Message) :
    ∀ (fuel : Nat) (cur : Message) (p : List Int) (acc : List Message),
      collectChain lk fuel cur p acc =
        (acc ++ (collectChain lk fuel cur p []).1, (collectChain lk fuel cur p []).2) := by
  intro fuel
  induction fuel with
  | zero => intro cur p acc; simp [collectChain]
  | succ a ih =>
    intro cur p acc
    rw [collectChain_succ, collectChain_succ]
    by_cases hp : cur.id ∈ p
    · rw [if_pos hp, if_pos hp]; simp
    · rw [if_neg hp, if_neg hp]
      cases hr : cur.reply_to_message_id with
      | none => simp
      | some rid =>
        dsimp only
        by_cases h0 : rid ≠ 0
        · rw [if_pos h0, if_pos h0]
          cases hl : lookupMsg lk rid with
          | none => simp
          | some nxt =>
            dsimp only
            rw [ih nxt (cur.id :: p) (acc ++ [cur]), ih nxt (cur.id :: p) ([] ++ [cur])]
            simp
        · rw [if_neg h0, if_neg h0]; simp

/-- Invariants of one chain walk: the collected ids are distinct, none was
already processed, and the output processed set is exactly the input one
plus the collected ids. -/
theorem collectChain_inv (lk : List Message) :
    ∀ (fuel : Nat) (cur : Message) (p : List Int),
      ((collectChain lk fuel cur p []).1.map Message.id).Nodup ∧
      (∀ x ∈ (collectChain lk fuel cur p []).1.map Message.id, x ∉ p) ∧
      (∀ x : Int, x ∈ (collectChain lk fuel cur p []).2 ↔
        x ∈ p ∨ x ∈ (collectChain lk fuel cur p []).1.map Message.id) := by
  intro fuel
  induction fuel with
  | zero => intro cur p; simp [collectChain]
  | succ a ih =>
    intro cur p
    rw [collectChain_succ]
    by_cases hp : cur.id ∈ p
    · rw [if_pos hp]; simp
    · rw [if_neg hp]
      cases hr : cur.reply_to_message_id with
      | none =>
        dsimp only
        refine ⟨by simp, ?_, ?_⟩
        · intro x hx
          simp at hx
          simpa [hx] using hp
        · intro x
          simp [List.mem_cons]
          tauto
      | some rid =>
        dsimp only
        by_cases h0 : rid ≠ 0
        · rw [if_pos h0]
          cases hl : lookupMsg lk rid with
          | none =>
            dsimp only
            refine ⟨by simp, ?_, ?_⟩
            · intro x hx
              simp at hx
              simpa [hx] using hp
            · intro x
              simp [List.mem_cons]
              tauto
          | some nxt =>
            dsimp only
            rw [collectChain_acc]
            obtain ⟨ihN, ihP, ihM⟩ := ih nxt (cur.id :: p)
            refine ⟨?_, ?_, ?_⟩
            · simp only [List.nil_append, List.singleton_append, List.map_cons,
                List.nodup_cons]
              refine ⟨fun hmem => (ihP cur.id hmem) (List.mem_cons_self _ _), ihN⟩
            · intro x hx
              simp only [List.nil_append, List.singleton_append, List.map_cons,
                List.mem_cons] at hx
              rcases hx with hx | hx
              · simpa [hx] using hp
              · intro hxp
                exact (ihP x hx) (List.mem_cons_of_mem _ hxp)
            · intro x
              rw [ihM x]
              simp only [List.nil_append, List.singleton_append, List.map_cons,
                List.mem_cons]
              tauto
        · rw [if_neg h0]
          refine ⟨by simp, ?_, ?_⟩
          · intro x hx
            simp at hx
            simpa [hx] using hp
          · intro x
            simp [List.mem_cons]
            tauto

/-- Invariants of a whole level-2 pass: across all collected chains the
message ids are pairwise distinct, and none was in the initial processed
set. -/
theorem contextLevel2Chains_inv (lk : List Message) (fuel : Nat) :
    ∀ (l : List Message) (p : List Int),
      (((contextLevel2Chains lk fuel l p).map (fun c => c.map Message.id)).flatten).Nodup ∧
      (∀ x ∈ ((contextLevel2Chains lk fuel l p).map (fun c => c.map Message.id)).flatten,
        x ∉ p) := by
  intro l
  induction l with
  | nil => intro p; simp [contextLevel2Chains]
  | cons m rest ih =>
    intro p
    by_cases hp : m.id ∈ p
    · simpa [contextLevel2Chains, hp] using ih p
    · simp only [contextLevel2Chains, if_neg hp, List.map_cons, List.flatten_cons]
      obtain ⟨hN, hP, hM⟩ := collectChain_inv lk fuel m p
      obtain ⟨ihN, ihP⟩ := ih ((collectChain lk fuel m p []).2)
      constructor
      · rw [List.nodup_append]
        refine ⟨hN, ihN, ?_⟩
        intro x hx hx2
        exact ihP x hx2 ((hM x).mpr (Or.inr hx))
      · intro x hx
        rcases List.mem_append.mp hx with hx1 | hx2
        · exact hP x hx1
        · intro hxp
          exact ihP x hx2 ((hM x).mpr (Or.inl hxp))

/-- The level-2 line output is exactly the per-chain rendering of the
collected chains (the bridge from the instrumented pass to the emitted
lines). -/
theorem contextLevel2Go_eq_chains (lk : List Message) (fuel : Nat) :
    ∀ (l : List Message) (p : List Int),
      contextLevel2Go lk fuel l p =
        ((contextLevel2Chains lk fuel l p).map (fun chain =>
          renderChainLines chain ++
            if renderChainLines chain ≠ [] then [""] else [])).flatten := by
  intro l
  induction l with
  | nil => intro p; rfl
  | cons m rest ih =>
    intro p
    by_cases hp : m.id ∈ p
    · simp [contextLevel2Go, contextLevel2Chains, hp, ih]
    · simp [contextLevel2Go, contextLevel2Chains, hp, processReplyChain, ih]

/-- C4: in a level-2 pass, no message id is ever collected into more than
one chain block (the flattened ids are pairwise distinct), and the emitted
level-2 lines are exactly the per-chain renderings of those blocks, so a
message emitted in one chain block is never re-emitted in a later one. -/
theorem c4_no_id_in_two_chain_blocks :
    ∀ msgs : List Message,
      (((contextLevel2Chains msgs (msgs.length + 1) msgs []).map
        (fun chain => chain.map Message.id)).flatten).Nodup ∧
      contextLevel2Lines msgs =
        ((contextLevel2Chains msgs (msgs.length + 1) msgs []).map
          (fun chain => renderChainLines chain ++
            if renderChainLines chain ≠ [] then [""] else [])).flatten := by
  intro msgs
  exact ⟨(contextLevel2Chains_inv msgs (msgs.length + 1) msgs []).1,
    contextLevel2Go_eq_chains msgs (msgs.length + 1) msgs []⟩

/-- C2: for every message set and every starting message the linear
reply-chain walk terminates — its result is the same for any two fuel
budgets above the number of unvisited ids, so the unbounded source loop
stabilizes — and on the synthetic two-cycle (A replies to B, B replies to
A) the walk visits both messages exactly once. -/
theorem c2_reply_chain_walk_terminates :
    (∀ (msgs : List Message) (cur : Message) (processed : List Int)
        (acc : List Message) (f1 f2 : Nat), cur ∈ msgs →
      (chainIdSet msgs \ processed.toFinset).card < f1 →
      (chainIdSet msgs \ processed.toFinset).card < f2 →
      collectChain msgs f1 cur processed acc = collectChain msgs f2 cur processed acc) ∧
    (collectChain [c2MsgA, c2MsgB] 3 c2MsgA [] []).1.map Message.id = [1, 2] ∧
    ((collectChain [c2MsgA, c2MsgB] 3 c2MsgA [] []).1.map Message.id).count 1 = 1 ∧
    ((collectChain [c2MsgA, c2MsgB] 3 c2MsgA [] []).1.map Message.id).count 2 = 1 := by
  refine ⟨?_, by decide, by decide, by decide⟩
  intro msgs cur p acc f1 f2 hcur h1 h2
  exact collectChain_fuel_stable msgs f1 f2 cur p acc
    (by rw [chainIdSet, List.mem_toFinset]; exact List.mem_map_of_mem Message.id hcur) h1 h2

/-- C2 witness: the stability half applied to the two-cycle at fuels 5 and
3, whose hypotheses hold concretely. -/
theorem c2_witness_two_cycle :
    c2MsgA ∈ [c2MsgA, c2MsgB] ∧
    (chainIdSet [c2MsgA, c2MsgB] \ ([] : List Int).toFinset).card < 5 ∧
    (chainIdSet [c2MsgA, c2MsgB] \ ([] : List Int).toFinset).card < 3 ∧
    collectChain [c2MsgA, c2MsgB] 5 c2MsgA [] [] =
      collectChain [c2MsgA, c2MsgB] 3 c2MsgA [] [] :=
  ⟨by decide, by decide, by decide,
    c2_reply_chain_walk_terminates.1 [c2MsgA, c2MsgB] c2MsgA [] [] 5 3
      (by decide) (by decide) (by decide)⟩

theorem mem_sortedChildren {msgs : List Message} {i c : Int}
    (h : c ∈ sortedChildren msgs i) :
    ∃ m ∈ msgs, m.id = c ∧ ∃ r, m.reply_to_message_id = some r ∧ r ≠ 0 ∧ r = i := by
  have h2 : c ∈ conversationChildren msgs i :=
    (List.mergeSort_perm (conversationChildren msgs i) _).mem_iff.mp h
  rw [conversationChildren, List.mem_filterMap] at h2
  obtain ⟨m, hm, hf⟩ := h2
  refine ⟨m, hm, ?_⟩
  cases hr : m.reply_to_message_id with
  | none => rw [hr] at hf; exact absurd hf (by simp)
  | some r =>
    rw [hr] at hf
    dsimp only at hf
    by_cases hc : r ≠ 0 ∧ r = i
    · rw [if_pos hc] at hf
      exact ⟨Option.some_injective _ hf, r, rfl, hc⟩
    · rw [if_neg hc] at hf
      exact absurd hf (by simp)

/-- If a message's id is emitted anywhere inside a level-3 thread
traversal started at `i`, and that message is an orphaned reply (target id
absent from the set), then the traversal started at the message itself:
orphans are never reached as children, because their unique parent id is
not in the lookup. -/
theorem visitL3_mem_id (msgs : List Message) (m : Message) (t : Int)
    (hnd : (msgs.map Message.id).Nodup) (hm : m ∈ msgs)
    (ht : m.reply_to_message_id = some t) (ht0 : t ≠ 0)
    (htm : t ∉ msgs.map Message.id) :
    ∀ (fuel : Nat) (i : Int) (d : Nat),
      m.id ∈ (visitL3 msgs msgs fuel i d).map (fun p => p.1.id) → i = m.id := by
  intro fuel
  induction fuel with
  | zero => intro i d h; simp [visitL3] at h
  | succ a ih =>
    intro i d h
    rw [visitL3] at h
    cases hl : lookupMsg msgs i with
    | none => rw [hl] at h; simp at h
    | some msg =>
      rw [hl] at h
      dsimp only at h
      by_cases htp : msg.type ≠ "message"
      · rw [if_pos htp] at h; simp at h
      · rw [if_neg htp] at h
        simp only [List.map_cons, List.mem_cons, List.map_flatten, List.map_map,
          List.mem_flatten, List.mem_map, Function.comp] at h
        rcases h with h | ⟨l2, ⟨c, hc, hceq⟩, hx⟩
        · rw [h]
          exact ((lookupMsg_mem hl).2).symm
        · rw [← hceq] at hx
          have hci : c = m.id := ih c (d + 1) hx
          rw [hci] at hc
          obtain ⟨m2, hm2, hid2, r, hr2, hr0, hri⟩ := mem_sortedChildren hc
          have hm2m : m2 = m := List.inj_on_of_nodup_map hnd hm2 hm hid2
          rw [hm2m, ht] at hr2
          have htr : t = r := by simpa using hr2
          have hmm := lookupMsg_mem hl
          exact absurd (by
            rw [htr, hri, ← hmm.2]
            exact List.mem_map_of_mem Message.id hmm.1) htm

/-- C6 (amended to nonzero reply ids: `reply_to_message_id = 0` is falsy
in Python, so such a message is treated as having no reply target and
becomes a root): in a context level-3 pass over messages with distinct
ids, a message whose `reply_to_message_id` is set to a nonzero id absent
from the message set is never visited, hence appears in no thread block. -/
theorem c6_orphan_reply_never_emitted (msgs : List Message) (m : Message) (t : Int)
    (hnd : (msgs.map Message.id).Nodup) (hm : m ∈ msgs)
    (ht : m.reply_to_message_id = some t) (ht0 : t ≠ 0)
    (htm : t ∉ msgs.map Message.id) :
    m.id ∉ contextLevel3VisitedIds msgs := by
  intro hmem
  rw [contextLevel3VisitedIds, List.mem_flatten] at hmem
  obtain ⟨l, hl, hx⟩ := hmem
  rw [List.mem_map] at hl
  obtain ⟨root, hroot, hleq⟩ := hl
  rw [← hleq] at hx
  have hrid : root.id = m.id :=
    visitL3_mem_id msgs m t hnd hm ht ht0 htm (msgs.length + 1) root.id 0 hx
  have hrootmem : root ∈ msgs := List.mem_of_mem_filter hroot
  have hrm : root = m := List.inj_on_of_nodup_map hnd hrootmem hm hrid
  rw [hrm] at hroot
  have h2 := List.of_mem_filter hroot
  simp [pyTruthyOptInt, ht, ht0] at h2

/-- Bridge from the instrumented level-3 traversal to the emitted lines:
the thread lines are exactly the rendered visited pairs, so a message
visited nowhere appears nowhere in level-3 output. -/
theorem processMessageL3_eq_visit (lk msgs : List Message) :
    ∀ (fuel : Nat) (i : Int) (d : Nat),
      processMessageL3 lk msgs fuel i d =
        (visitL3 lk msgs fuel i d).filterMap (fun p =>
          if formatContextMessage p.1 p.2 ≠ "" then some (formatContextMessage p.1 p.2)
          else none) := by
  intro fuel
  induction fuel with
  | zero => intro i d; rfl
  | succ a ih =>
    intro i d
    rw [processMessageL3, visitL3]
    cases hl : lookupMsg lk i with
    | none => rfl
    | some msg =>
      dsimp only
      by_cases htp : msg.type ≠ "message"
      · rw [if_pos htp, if_pos htp]
        rfl
      · rw [if_neg htp, if_neg htp]
        rw [List.filterMap_cons]
        by_cases hf : formatContextMessage msg d ≠ ""
        · rw [if_pos hf]
          simp only [List.filterMap_flatten, List.map_map, Function.comp, ih]
          rw [if_pos hf]
          simp [ite_not, Function.comp_def]
        · rw [if_neg hf]
          simp only [List.filterMap_flatten, List.map_map, Function.comp, ih]
          rw [if_neg hf]
          simp [ite_not, Function.comp_def]

/-- C6 witness: the theorem applied to a two-message chat whose second
message replies to the absent id 5. -/
theorem c6_witness_orphan :
    ([c6MsgRoot, c6MsgOrphan].map Message.id).Nodup ∧
    c6MsgOrphan ∈ [c6MsgRoot, c6MsgOrphan] ∧
    c6MsgOrphan.reply_to_message_id = some 5 ∧
    (5 : Int) ≠ 0 ∧
    (5 : Int) ∉ [c6MsgRoot, c6MsgOrphan].map Message.id ∧
    c6MsgOrphan.id ∉ contextLevel3VisitedIds [c6MsgRoot, c6MsgOrphan] :=
  ⟨by decide, by decide, rfl, by decide, by decide,
    c6_orphan_reply_never_emitted [c6MsgRoot, c6MsgOrphan] c6MsgOrphan 5
      (by decide) (by decide) rfl (by decide) (by decide)⟩

theorem filterMap_all_isSome {l : List RawMessage}
    (h : ∀ r ∈ l, (parseMessage r).isSome) :
    (l.filterMap parseMessage).length = l.length ∧
    (l.filterMap parseMessage).map some = l.map parseMessage := by
  induction l with
  | nil => simp
  | cons r rest ih =>
    have hr := h r (List.mem_cons_self _ _)
    obtain ⟨msg, hmsg⟩ := Option.isSome_iff_exists.mp hr
    have ihr := ih (fun x hx => h x (List.mem_cons_of_mem _ hx))
    rw [List.filterMap_cons, hmsg]
    simp only [List.length_cons, List.map_cons, hmsg]
    exact ⟨by rw [ihr.1], by rw [ihr.2]⟩

/-- C7: for a structurally valid export whose `messages` array decomposes
into nine records that parse successfully and one whose `Message(...)`
construction fails (here: the required `id` is missing, the one
construction failure a typed record admits), `parse_data` returns a
`ChatInfo` — no exception — whose messages are exactly the nine successes
in their original order. -/
theorem c7_one_bad_message_skipped (d : RawExport) (sf : String)
    (xs ys : List RawMessage) (b : RawMessage)
    (hmsgs : d.messages = some (xs ++ b :: ys))
    (hlen : xs.length + ys.length = 9)
    (hvalid : isValidTelegramExport d = true)
    (hgood : ∀ r ∈ xs ++ ys, (parseMessage r).isSome)
    (hbtype : (b.type.getD "") ∈ supportedTypes)
    (hbad : b.id = none) :
    ∃ chat, parseData d sf = Except.ok chat ∧
      chat.messages.length = 9 ∧
      chat.messages.map some = (xs ++ ys).map parseMessage := by
  have hpb : parseMessage b = none := by
    rw [parseMessage, buildMessage, hbad]
    simp [hbtype]
  have hsplit : (xs ++ b :: ys).filterMap parseMessage =
      (xs ++ ys).filterMap parseMessage := by
    rw [List.filterMap_append, List.filterMap_cons, hpb, ← List.filterMap_append]
  have hall := filterMap_all_isSome hgood
  refine ⟨⟨d.name.getD "Unknown Chat", d.type.getD "unknown", toString (d.id.getD 0),
    (d.messages.getD []).filterMap parseMessage, sf⟩, ?_, ?_, ?_⟩
  · rw [parseData, if_neg (by rw [hvalid]; simp)]
  · show ((d.messages.getD []).filterMap parseMessage).length = 9
    rw [hmsgs]
    show ((xs ++ b :: ys).filterMap parseMessage).length = 9
    rw [hsplit, hall.1, List.length_append]
    exact hlen
  · show ((d.messages.getD []).filterMap parseMessage).map some =
      (xs ++ ys).map parseMessage
    rw [hmsgs]
    show ((xs ++ b :: ys).filterMap parseMessage).map some = (xs ++ ys).map parseMessage
    rw [hsplit, hall.2]

/-- C7 witness: the theorem applied to a concrete ten-record export with
one id-less record in fifth position. -/
theorem c7_witness_ten_records :
    c7Export.messages = some ([c7GoodRec 1, c7GoodRec 2, c7GoodRec 3, c7GoodRec 4] ++
      c7BadRec :: [c7GoodRec 5, c7GoodRec 6, c7GoodRec 7, c7GoodRec 8, c7GoodRec 9]) ∧
    ([c7GoodRec 1, c7GoodRec 2, c7GoodRec 3, c7GoodRec 4].length +
      [c7GoodRec 5, c7GoodRec 6, c7GoodRec 7, c7GoodRec 8, c7GoodRec 9].length = 9) ∧
    isValidTelegramExport c7Export = true ∧
    (∀ r ∈ [c7GoodRec 1, c7GoodRec 2, c7GoodRec 3, c7GoodRec 4] ++
      [c7GoodRec 5, c7GoodRec 6, c7GoodRec 7, c7GoodRec 8, c7GoodRec 9],
      (parseMessage r).isSome) ∧
    (c7BadRec.type.getD "") ∈ supportedTypes ∧
    c7BadRec.id = none ∧
    (∃ chat, parseData c7Export "" = Except.ok chat ∧
      chat.messages.length = 9 ∧
      chat.messages.map some =
        ([c7GoodRec 1, c7GoodRec 2, c7GoodRec 3, c7GoodRec 4] ++
          [c7GoodRec 5, c7GoodRec 6, c7GoodRec 7, c7GoodRec 8, c7GoodRec 9]).map parseMessage) :=
  ⟨rfl, rfl, by decide, by decide, by decide, rfl,
    c7_one_bad_message_skipped c7Export ""
      [c7GoodRec 1, c7GoodRec 2, c7GoodRec 3, c7GoodRec 4]
      [c7GoodRec 5, c7GoodRec 6, c7GoodRec 7, c7GoodRec 8, c7GoodRec 9] c7BadRec
      rfl rfl (by decide) (by decide) (by decide) rfl⟩

/-- C1 witness: the amended theorem applied to the id `"user123"` and a
fresh cleaner instance. -/
theorem c1_witness_user123 :
    ("user123" : String) ≠ "" ∧
    c1Map0.lookup "user123" = none ∧
    ((anonymizeUserId c1Map0 (some "user123")).1 =
      (anonymizeUserId (anonymizeUserId c1Map0 (some "user123")).2 (some "user123")).1 ∧
     (anonymizeUserId c1Map0 (some "user123")).1 =
      "User_" ++ (sha256HexOfString "user123").take ANONYMIZED_USER_ID_LENGTH) :=
  ⟨by decide, rfl,
    c1_anonymize_twice_sha_prefix "user123" c1Map0 (by decide) (Or.inl rfl)⟩

end TgClean
